import Mathlib

/-!
Shallow embedding of the core event-to-notification pipeline of the
esp32-notifier firmware (file src/unnamed/part_001): the retry queue
(queueRetry / processRetryQueue), the connection-mode routing
(shouldUseCellular and the branch structure of sendNotifications), the
debounced input monitor (monitorInput), the log ring (addLog / handleLogs)
and the WiFi link state machine (connectWiFiNonBlocking /
updateWiFiConnection / startAccessPoint).

Modelling conventions:
* `millis()` (32-bit unsigned milliseconds) is modelled as `Nat`.  The
  firmware's wrap-safe subtractions `millis() - t` coincide with `Nat`
  subtraction whenever `millis() ≥ t`, which holds along the monotone
  executions the theorems quantify over.
* Within one loop tick the firmware may call `millis()` several times; the
  model uses a single `now` per tick.
* External collaborators (formatted time, photo capture, GPS fix, the
  per-service HTTP/SMTP senders) are parameters of the step functions;
  their results are opaque strings / booleans, as in spec section 6.
-/

namespace ESP32

/-- Source: `const unsigned long DEBOUNCE_DELAY = 50;` -/
def DEBOUNCE_DELAY : Nat := 50

/-- Source: `const unsigned long MIN_NOTIFICATION_INTERVAL = 5000;` -/
def MIN_NOTIFICATION_INTERVAL : Nat := 5000

/-- Source: `const int MAX_RETRIES = 3;` -/
def MAX_RETRIES : Nat := 3

/-- Source: `const unsigned long RETRY_DELAY = 60000;` -/
def RETRY_DELAY : Nat := 60000

/-- Source: `const int MAX_LOG_ENTRIES = 100;` -/
def MAX_LOG_ENTRIES : Nat := 100

/-- Source: `const unsigned long WIFI_TIMEOUT = 20000;` -/
def WIFI_TIMEOUT : Nat := 20000

/-- Source: `#define CONN_WIFI_ONLY 0` -/
def CONN_WIFI_ONLY : Nat := 0

/-- Source: `#define CONN_CELL_ONLY 1` -/
def CONN_CELL_ONLY : Nat := 1

/-- Source: `#define CONN_WIFI_CELL_BACKUP 2` -/
def CONN_WIFI_CELL_BACKUP : Nat := 2

/-! ## Retry queue (struct NotificationRetry, queueRetry, processRetryQueue) -/

/-- Source: `struct NotificationRetry { String title; String body;
unsigned long retryTime; int retryCount; String service; };` -/
structure NotificationRetry where
  title : String
  body : String
  retryTime : Nat
  retryCount : Nat
  service : String
deriving Repr, DecidableEq

/-- The three per-service WiFi-path senders that `processRetryQueue`
dispatches to by comparing the entry's `service` string.  Each returns the
success boolean of the send.  (`sendTelegramNotification` is invoked with
the body only, exactly as in the source.) -/
structure Senders where
  sendPushbulletNotification : String → String → Bool
  sendEmailNotification : String → String → Bool
  sendTelegramNotification : String → Bool

/-- The `success` computation inside `processRetryQueue`'s loop body:
`bool success = false;` followed by the `if/else if` chain on
`retryQueue[i].service`. -/
def retrySend (s : Senders) (e : NotificationRetry) : Bool :=
  if e.service = "pushbullet" then s.sendPushbulletNotification e.title e.body
  else if e.service = "email" then s.sendEmailNotification e.title e.body
  else if e.service = "telegram" then s.sendTelegramNotification e.body
  else false

/-- Source `queueRetry(String service, String title, String body)`:
builds an entry with `retryTime = millis() + RETRY_DELAY`, `retryCount = 0`
and appends it to the queue (`retryQueue.push_back(retry)`).  The
multiplier is written `RETRY_DELAY * 1` to display the first-retry schedule
explicitly. -/
def queueRetry (q : List NotificationRetry) (now : Nat)
    (service title body : String) : List NotificationRetry :=
  q ++ [{ title := title, body := body, retryTime := now + RETRY_DELAY * 1,
          retryCount := 0, service := service }]

/-- One iteration of `processRetryQueue`'s loop for the entry at index `i`:
if due (`millis() >= retryTime`), attempt the send; erase the entry when
`success || retryCount >= MAX_RETRIES`, otherwise increment `retryCount`
and set `retryTime = millis() + (RETRY_DELAY * (retryCount + 1))` with the
already-incremented `retryCount`.  Returns the surviving entry (if any) and
how many send attempts were made (0 or 1). -/
def processRetryEntry (s : Senders) (now : Nat) (e : NotificationRetry) :
    Option NotificationRetry × Nat :=
  if now ≥ e.retryTime then
    let success := retrySend s e
    if success || e.retryCount ≥ MAX_RETRIES then (none, 1)
    else
      let c := e.retryCount + 1
      (some { e with retryCount := c, retryTime := now + RETRY_DELAY * (c + 1) }, 1)
  else (some e, 0)

/-- Source `processRetryQueue()`: the backwards `for` loop with in-place
`erase` touches each entry exactly once and an erase at index `i` does not
move the not-yet-visited entries below `i`, so the call is equivalent to
processing every entry independently and keeping the survivors in order.
The second component counts the send attempts made during the call. -/
def processRetryQueue (s : Senders) (now : Nat) (q : List NotificationRetry) :
    List NotificationRetry × Nat :=
  let results := q.map (processRetryEntry s now)
  (results.filterMap (·.1), (results.map (·.2)).sum)

/-- Iterate `processRetryQueue` over a list of tick times, accumulating the
number of send attempts. -/
def runRetryTicks (s : Senders) (ticks : List Nat) (q : List NotificationRetry) :
    List NotificationRetry × Nat :=
  ticks.foldl
    (fun acc t =>
      let r := processRetryQueue s t acc.1
      (r.1, acc.2 + r.2))
    (q, 0)

/-- A channel whose senders always report failure. -/
def alwaysFailSenders : Senders :=
  { sendPushbulletNotification := fun _ _ => false
    sendEmailNotification := fun _ _ => false
    sendTelegramNotification := fun _ => false }

/-! ## Connection-mode routing (shouldUseCellular, sendNotifications) -/

/-- The link a notification attempt is routed over. -/
inductive Link where
  | wifi
  | cellular
  | none
deriving Repr, DecidableEq

/-- Source `bool shouldUseCellular(int connectionMode)`: the `switch` on
the mode.  The globals it reads are passed explicitly:
`wifiConnected` stands for `wifiState == WIFI_CONNECTED` and
`cellular_connected` is the cellular link flag.  `CONN_WIFI_CELL_BACKUP`
returns `(wifiState != WIFI_CONNECTED && cellular_connected)`; the
`default` case returns `false`. -/
def shouldUseCellular (connectionMode : Nat) (wifiConnected cellular_connected : Bool) : Bool :=
  if connectionMode = CONN_WIFI_ONLY then false
  else if connectionMode = CONN_CELL_ONLY then cellular_connected
  else if connectionMode = CONN_WIFI_CELL_BACKUP then (!wifiConnected && cellular_connected)
  else false

/-- The link actually chosen by `sendNotifications` for a generic channel
(the Pushbullet and Telegram blocks): `if (useCellular) { …cellular… }
else if (wifiState == WIFI_CONNECTED) { …WiFi… }` and otherwise the channel
is skipped. -/
def resolveLink (connectionMode : Nat) (wifiConnected cellular_connected : Bool) : Link :=
  if shouldUseCellular connectionMode wifiConnected cellular_connected then Link.cellular
  else if wifiConnected then Link.wifi
  else Link.none

/-- Modelled from the spec (section 4.1), for comparison with `resolveLink`:
`chooseLink(mode, wifiUp, cellularUp)` — WiFiOnly → WiFi if up else None;
CellularOnly → Cellular if up else None; WiFiWithCellularBackup → WiFi if
up, else Cellular if up, else None. -/
def chooseLinkSpec (connectionMode : Nat) (wifiUp cellularUp : Bool) : Link :=
  if connectionMode = CONN_WIFI_ONLY then (if wifiUp then Link.wifi else Link.none)
  else if connectionMode = CONN_CELL_ONLY then (if cellularUp then Link.cellular else Link.none)
  else if connectionMode = CONN_WIFI_CELL_BACKUP then
    (if wifiUp then Link.wifi else if cellularUp then Link.cellular else Link.none)
  else Link.none

/-! ## Input monitor (struct InputConfig, monitorInput) -/

/-- Source `struct InputConfig`: pin, enabled, momentary_mode,
capture_photo, include_gps, name, ON/OFF message templates, then the
runtime fields `lastState`, `currentState`, `lastDebounceTime`,
`lastNotificationTime`.  Pin levels HIGH/LOW are `true`/`false`. -/
structure InputConfig where
  pin : Nat
  enabled : Bool
  momentary_mode : Bool
  capture_photo : Bool
  include_gps : Bool
  name : String
  message_on : String
  message_off : String
  lastState : Bool
  currentState : Bool
  lastDebounceTime : Nat
  lastNotificationTime : Nat
deriving Repr, DecidableEq

/-- What one `monitorInput` call did with the (possible) confirmed edge:
nothing, a call to `sendNotifications(title, message, photoFilename)`, or a
rate-limited suppression. -/
inductive MonitorAction where
  | idle
  | dispatched (title message photoFilename : String)
  | suppressed
deriving Repr, DecidableEq

/-- `true` exactly on the `dispatched` constructor. -/
def MonitorAction.isDispatched : MonitorAction → Bool
  | .dispatched _ _ _ => true
  | _ => false

/-- The external collaborators and globals `monitorInput` reads:
`notification_title`, `getFormattedTime()`, the camera flags plus the
`capturePhoto()` result, and the GPS flag plus the `getGPSLocation()`
result. -/
structure MonitorEnv where
  notification_title : String
  formattedTime : String
  camera_enabled : Bool
  camera_initialized : Bool
  capturePhotoResult : String
  gps_enabled : Bool
  gpsLocation : String
deriving Repr, DecidableEq

/-- Arduino `String::replace(before, after)` replaces every occurrence. -/
def replaceAll (s before after : String) : String :=
  String.intercalate after (s.splitOn before)

/-- The raw-sample update opening `monitorInput`: if
`reading != currentState`, set `lastDebounceTime = now` and
`currentState = reading`. -/
def debouncePhase (inp : InputConfig) (reading : Bool) (now : Nat) : InputConfig :=
  if reading ≠ inp.currentState then
    { inp with lastDebounceTime := now, currentState := reading }
  else inp

/-- Source `void monitorInput(int index)`, one loop-tick evaluation of one
input with raw sample `reading` at time `now`:

1. the raw-sample update (`debouncePhase`);
2. if `now - lastDebounceTime > DEBOUNCE_DELAY` and
   `currentState != lastState`, commit `lastState = currentState`
   (the confirmed edge) and pick the message: Momentary mode notifies only
   when the new state is HIGH (message_on); Toggle mode always notifies
   (message_on when HIGH, message_off when LOW);
3. rate limiting: dispatch only when
   `now - lastNotificationTime >= MIN_NOTIFICATION_INTERVAL`; on dispatch
   substitute `{timestamp}`, capture the photo / append the GPS fix when
   their flags allow, log the INFO trigger line, call `sendNotifications`
   and set `lastNotificationTime = now`; otherwise log the rate-limited
   WARNING and leave the state alone.

Returns the new state, the action, and the `addLog` calls made. -/
def monitorInput (env : MonitorEnv) (inp0 : InputConfig) (reading : Bool) (now : Nat) :
    InputConfig × MonitorAction × List (String × String) :=
  let inp := debouncePhase inp0 reading now
  if now - inp.lastDebounceTime > DEBOUNCE_DELAY then
    if inp.currentState ≠ inp.lastState then
      let inp := { inp with lastState := inp.currentState }
      let sel : Bool × String :=
        if inp.momentary_mode then
          if inp.currentState then (true, inp.message_on) else (false, "")
        else
          (true, if inp.currentState then inp.message_on else inp.message_off)
      if sel.1 then
        if now - inp.lastNotificationTime ≥ MIN_NOTIFICATION_INTERVAL then
          let message := replaceAll sel.2 "{timestamp}" env.formattedTime
          let photoFilename :=
            if inp.capture_photo && env.camera_enabled && env.camera_initialized then
              env.capturePhotoResult else ""
          let message :=
            if inp.include_gps && env.gps_enabled && env.gpsLocation.length > 0 then
              message ++ "\n" ++ env.gpsLocation else message
          ({ inp with lastNotificationTime := now },
            MonitorAction.dispatched env.notification_title message photoFilename,
            [("INFO", "Trigger: " ++ inp.name ++ " - " ++
              (if inp.currentState then "HIGH" else "LOW"))])
        else
          (inp, MonitorAction.suppressed,
            [("WARNING", inp.name ++ " notification rate limited")])
      else (inp, MonitorAction.idle, [])
    else (inp, MonitorAction.idle, [])
  else (inp, MonitorAction.idle, [])

/-- Iterate `monitorInput` over a list of (raw sample, time) ticks,
keeping only the state. -/
def runMonitor (env : MonitorEnv) (inp : InputConfig) (ticks : List (Bool × Nat)) :
    InputConfig :=
  ticks.foldl (fun s rt => (monitorInput env s rt.1 rt.2).1) inp

/-- Slot 0 of the source initializer
`InputConfig inputs[MAX_INPUTS] = {{21, true, false, false, false,
"Input 1", "Input 1 ON at {timestamp}", "Input 1 OFF at {timestamp}",
LOW, LOW, 0, 0}, …}`. -/
def input1Boot : InputConfig :=
  { pin := 21, enabled := true, momentary_mode := false, capture_photo := false,
    include_gps := false, name := "Input 1",
    message_on := "Input 1 ON at {timestamp}",
    message_off := "Input 1 OFF at {timestamp}",
    lastState := false, currentState := false,
    lastDebounceTime := 0, lastNotificationTime := 0 }

/-! ## Log ring (struct LogEntry, addLog, handleLogs) -/

/-- Source `struct LogEntry { String timestamp; String level; String message; }`. -/
structure LogEntry where
  timestamp : String
  level : String
  message : String
deriving Repr, DecidableEq, Inhabited

/-- The logger's mutable globals: `logBuffer[MAX_LOG_ENTRIES]`, `logIndex`,
`logCount`, plus `addLog`'s function-static `earlyBoot` and `callCount`. -/
structure LogState where
  logBuffer : List LogEntry
  logIndex : Nat
  logCount : Nat
  earlyBoot : Bool
  callCount : Nat
deriving Repr, DecidableEq

/-- Boot state: a zeroed 100-slot buffer, `logIndex = 0`, `logCount = 0`,
`earlyBoot = true`, `callCount = 0`. -/
def logBoot : LogState :=
  { logBuffer := List.replicate MAX_LOG_ENTRIES default, logIndex := 0,
    logCount := 0, earlyBoot := true, callCount := 0 }

/-- Source `void addLog(String level, String message)`: during early boot
the entry only goes to the serial port and `if (++callCount > 3)
earlyBoot = false;` — so the first four calls are not buffered.  Afterwards
the entry (timestamped via `getFormattedTime()`, passed in as `ts`) is
stored at `logIndex`, `logIndex = (logIndex + 1) % MAX_LOG_ENTRIES`, and
`logCount` grows up to `MAX_LOG_ENTRIES`. -/
def addLog (s : LogState) (ts level message : String) : LogState :=
  if s.earlyBoot then
    let cc := s.callCount + 1
    { s with callCount := cc, earlyBoot := !(cc > 3) }
  else
    { s with
      logBuffer := s.logBuffer.set s.logIndex ⟨ts, level, message⟩,
      logIndex := (s.logIndex + 1) % MAX_LOG_ENTRIES,
      logCount := if s.logCount < MAX_LOG_ENTRIES then s.logCount + 1 else s.logCount }

/-- The order in which `handleLogs()` emits the buffered entries:
`displayCount = min(logCount, MAX_LOG_ENTRIES)` and the loop
`for (i = displayCount - 1; i >= 0; i--)` reads
`idx = (logIndex - 1 - i + MAX_LOG_ENTRIES) % MAX_LOG_ENTRIES`
(written with `Nat` arithmetic; `logIndex ≤ 99` and `i ≤ 99` keep the C
`int` expression non-negative, so the two agree). -/
def handleLogsOrder (s : LogState) : List LogEntry :=
  let displayCount := if s.logCount < MAX_LOG_ENTRIES then s.logCount else MAX_LOG_ENTRIES
  (List.range displayCount).reverse.map
    (fun i => s.logBuffer.getD ((s.logIndex + MAX_LOG_ENTRIES - 1 - i) % MAX_LOG_ENTRIES) default)

/-! ## WiFi link state machine -/

/-- Source `enum WiFiState { WIFI_IDLE, WIFI_CONNECTING, WIFI_CONNECTED,
WIFI_FAILED };` -/
inductive WiFiState where
  | WIFI_IDLE
  | WIFI_CONNECTING
  | WIFI_CONNECTED
  | WIFI_FAILED
deriving Repr, DecidableEq

/-- The WiFi-side globals: `wifiState`, `apMode`, `wifiConnectStart`. -/
structure WifiConn where
  wifiState : WiFiState
  apMode : Bool
  wifiConnectStart : Nat
deriving Repr, DecidableEq

/-- Source `void startAccessPoint()`: brings up the configuration access
point and sets `apMode = true; wifiState = WIFI_CONNECTED;`. -/
def startAccessPoint (s : WifiConn) : WifiConn :=
  { s with apMode := true, wifiState := WiFiState.WIFI_CONNECTED }

/-- Source `void connectWiFiNonBlocking()`: starts association and sets
`wifiState = WIFI_CONNECTING; wifiConnectStart = millis(); apMode = false;`. -/
def connectWiFiNonBlocking (now : Nat) (s : WifiConn) : WifiConn :=
  { s with
    wifiState := WiFiState.WIFI_CONNECTING,
    wifiConnectStart := now,
    apMode := false }

/-- Source `void updateWiFiConnection()`: no effect in AP mode; while
`WIFI_CONNECTING`, move to `WIFI_CONNECTED` when the lower layer reports
`WL_CONNECTED` (`wlConnected`); otherwise, once
`millis() - wifiConnectStart > WIFI_TIMEOUT`, set `wifiState = WIFI_FAILED`
and immediately fall back to AP mode via `startAccessPoint()`. -/
def updateWiFiConnection (wlConnected : Bool) (now : Nat) (s : WifiConn) : WifiConn :=
  if s.apMode then s
  else if s.wifiState = WiFiState.WIFI_CONNECTING then
    if wlConnected then { s with wifiState := WiFiState.WIFI_CONNECTED }
    else if now - s.wifiConnectStart > WIFI_TIMEOUT then
      startAccessPoint { s with wifiState := WiFiState.WIFI_FAILED }
    else s
  else s

/-! ## Concrete values used in the theorems below -/

/-- An environment with enrichment collaborators disabled, as in the
default configuration (camera and GPS off). -/
def env0 : MonitorEnv :=
  { notification_title := "Device Status Alert",
    formattedTime := "2026-01-01 00:00:00",
    camera_enabled := false, camera_initialized := false,
    capturePhotoResult := "", gps_enabled := false, gpsLocation := "" }

/-- The logger state after 150 `addLog` calls (messages `m1` … `m150`)
starting from boot. -/
def logsAfter150 : LogState :=
  (List.range 150).foldl
    (fun s n => addLog s "" "INFO" ("m" ++ toString (n + 1))) logBoot

/-- A pending retry as left by a failed immediate Pushbullet send at time 0. -/
def pbRetryAt0 : List NotificationRetry := queueRetry [] 0 "pushbullet" "T" "B"

/-- Input 1 at boot with a pending HIGH sample (debounce timer still 0). -/
def input1PendingHigh : InputConfig := { input1Boot with currentState := true }

/-- Input 1 switched to Momentary mode, with a pending HIGH held since 0. -/
def input1Momentary : InputConfig :=
  { input1Boot with momentary_mode := true, currentState := true }

/-- Input 1 after a dispatch recorded at 6000 ms, with a new pending HIGH
held since 5000 ms. -/
def input1AfterDispatch : InputConfig :=
  { input1Boot with
    currentState := true, lastDebounceTime := 5000, lastNotificationTime := 6000 }

end ESP32

namespace ESP32

/-! ## Theorems -/

/-- C1: the claim says a channel whose sender always fails is attempted
exactly `1 + MAX_RETRIES = 4` times in total (1 immediate + 3 queue-driven
retries) before the pending entry is dropped.  Evaluating the embedded
retry queue at the failing input shows otherwise: the entry queued at time
0 after the failed immediate attempt is processed at its successive due
times 60000, 180000, 360000 and 600000, the sender is invoked at each of
those four ticks, and only the fourth processing (which still performs a
send) erases the entry — because `processRetryQueue` tests
`retryCount >= MAX_RETRIES` only after the send, with the
not-yet-incremented count.  So the total is `1 + 4 = 5` attempts, not
`1 + MAX_RETRIES = 4` (the repository README also promises "up to 3
attempts"). -/
theorem C1_total_attempts_is_five :
    runRetryTicks alwaysFailSenders [60000, 180000, 360000, 600000] pbRetryAt0
      = ([], 4) ∧ 1 + 4 ≠ 1 + MAX_RETRIES := by
  exact ⟨rfl, by decide⟩

/-- C2 counterexample: the claim says a CellularOnly channel with cellular
down resolves to no link (skip) and is never sent over WiFi.  In
`sendNotifications` the generic channel branch is
`if (useCellular) {…} else if (wifiState == WIFI_CONNECTED) {…WiFi…}`, and
`shouldUseCellular(CONN_CELL_ONLY)` is false when cellular is down, so with
WiFi up the send goes over WiFi: `resolveLink CONN_CELL_ONLY true false`
is WiFi where the spec's table (`chooseLinkSpec`) says None. -/
theorem C2_cellular_only_counterexample :
    resolveLink CONN_CELL_ONLY true false = Link.wifi ∧
    chooseLinkSpec CONN_CELL_ONLY true false = Link.none ∧
    Link.wifi ≠ Link.none := by
  decide

/-- C2 amended: the link chosen for a generic channel is the pure function
of `(mode, wifiUp, cellularUp)` given by: WiFiOnly → WiFi if up else None;
CellularOnly → Cellular if cellular is up, else **WiFi if WiFi is up**,
else None; WiFiWithCellularBackup → WiFi if up, else Cellular if up, else
None.  Only the CellularOnly row differs from the claimed table, exactly
as the counterexample forces. -/
theorem C2_routing_table_amended (w c : Bool) :
    resolveLink CONN_WIFI_ONLY w c = (if w then Link.wifi else Link.none) ∧
    resolveLink CONN_CELL_ONLY w c =
      (if c then Link.cellular else if w then Link.wifi else Link.none) ∧
    resolveLink CONN_WIFI_CELL_BACKUP w c =
      (if w then Link.wifi else if c then Link.cellular else Link.none) := by
  cases w <;> cases c <;> decide

/-- C3: linear retry backoff.  The initial enqueue (`queueRetry`) schedules
the first retry at `now + RETRY_DELAY * 1` after the immediate failure, and
a failed due retry with current count `c` increments the count to `c + 1`
and reschedules at `now + RETRY_DELAY * ((c + 1) + 1)` — i.e. with the
multiplier `retryCount + 1` taken after the increment, so the Nth retry is
always scheduled `RETRY_DELAY * N` after the failure that triggered it
(N = 1 from the enqueue, N = c + 2 from the reschedule), a linear, not
exponential, backoff. -/
theorem C3_linear_backoff (q : List NotificationRetry) (now : Nat)
    (service title body : String) (s : Senders) (e : NotificationRetry)
    (hdue : now ≥ e.retryTime) (hfail : retrySend s e = false)
    (hlt : e.retryCount < MAX_RETRIES) :
    queueRetry q now service title body =
      q ++ [{ title := title, body := body, retryTime := now + RETRY_DELAY * 1,
              retryCount := 0, service := service }] ∧
    (processRetryEntry s now e).1 =
      some { e with retryCount := e.retryCount + 1,
                    retryTime := now + RETRY_DELAY * (e.retryCount + 1 + 1) } := by
  refine ⟨rfl, ?_⟩
  simp [processRetryEntry, hdue, hfail, Nat.not_le.mpr hlt]

/-- Witness for C3 at a concrete input: an entry with `retryCount = 0` due
at time 0 under the always-failing senders is rescheduled to
`RETRY_DELAY * 2` with count 1. -/
theorem C3_linear_backoff_witness :
    (0 ≥ (1000 : Nat) - 1000 ∧
      retrySend alwaysFailSenders ⟨"T", "B", 0, 0, "telegram"⟩ = false ∧
      (0 : Nat) < MAX_RETRIES) ∧
    (queueRetry [] 0 "telegram" "T" "B" =
      [{ title := "T", body := "B", retryTime := 0 + RETRY_DELAY * 1,
         retryCount := 0, service := "telegram" }] ∧
    (processRetryEntry alwaysFailSenders 0 ⟨"T", "B", 0, 0, "telegram"⟩).1 =
      some { title := "T", body := "B", retryTime := 0 + RETRY_DELAY * (0 + 1 + 1),
             retryCount := 0 + 1, service := "telegram" }) := by
  refine ⟨⟨by decide, by decide, by decide⟩, ?_⟩
  exact C3_linear_backoff [] 0 "telegram" "T" "B" alwaysFailSenders
    ⟨"T", "B", 0, 0, "telegram"⟩ (by decide) (by decide) (by decide)

/-- C4 counterexample: the claim (with the spec's own test) says that after
the 4th total attempt the pending entry is absent from the queue, having
been removed when `retryCount` reaches `MAX_RETRIES`.  Running the embedded
queue with an always-failing sender through the first three due retry ticks
(attempts 2–4, after the immediate attempt 1) leaves the entry **still in
the queue** with `retryCount = MAX_RETRIES` and a fifth attempt scheduled
at 600000; it is erased only after one more send. -/
theorem C4_entry_present_after_fourth_attempt :
    (runRetryTicks alwaysFailSenders [60000, 180000, 360000] pbRetryAt0).1 =
      [{ title := "T", body := "B", retryTime := 600000,
         retryCount := MAX_RETRIES, service := "pushbullet" }] ∧
    [({ title := "T", body := "B", retryTime := 600000,
        retryCount := MAX_RETRIES, service := "pushbullet" } : NotificationRetry)] ≠ [] := by
  exact ⟨rfl, by decide⟩

/-- C4 amended: a due entry is removed from the queue exactly when its send
succeeds or its **stored** `retryCount` is already at `MAX_RETRIES` — so an
always-failing entry is dropped only on the attempt *after* its count
reaches `MAX_RETRIES` (the 5th total attempt), and the drop itself writes
no permanent-failure log entry (the `erase` branch of `processRetryQueue`
makes no `addLog` call; only the per-attempt sender error logs exist). -/
theorem C4_removal_condition (s : Senders) (now : Nat) (e : NotificationRetry)
    (hdue : now ≥ e.retryTime) :
    (processRetryEntry s now e).1 = none ↔
      (retrySend s e = true ∨ e.retryCount ≥ MAX_RETRIES) := by
  by_cases hs : retrySend s e <;> by_cases hc : e.retryCount ≥ MAX_RETRIES <;>
    simp [processRetryEntry, hdue, hs, hc]

/-- Witness for C4 at a concrete input: a due entry with
`retryCount = MAX_RETRIES` under always-failing senders is removed. -/
theorem C4_removal_condition_witness :
    ((5 : Nat) ≥ 5) ∧
    ((processRetryEntry alwaysFailSenders 5 ⟨"T", "B", 5, MAX_RETRIES, "email"⟩).1 = none ↔
      (retrySend alwaysFailSenders ⟨"T", "B", 5, MAX_RETRIES, "email"⟩ = true ∨
        MAX_RETRIES ≥ MAX_RETRIES)) := by
  exact ⟨by decide,
    C4_removal_condition alwaysFailSenders 5 ⟨"T", "B", 5, MAX_RETRIES, "email"⟩ (by decide)⟩

set_option maxRecDepth 100000 in
/-- C8: the claim says the ring buffer caps at 100 entries, keeps exactly
the most recent 100 after 150 insertions, and that the display reads them
back newest-first.  The capacity and retention parts hold: after 150
`addLog` calls (`m1` … `m150`; the first four are swallowed by the
early-boot path) `logCount = MAX_LOG_ENTRIES` and exactly `m51` … `m150`
remain.  But `handleLogs` emits them **oldest-first**: its loop
`for (i = displayCount - 1; i >= 0; i--)` with
`idx = (logIndex - 1 - i + MAX_LOG_ENTRIES) % MAX_LOG_ENTRIES` starts at
the oldest kept entry, contradicting the claim and the code's own
"newest first" comment. -/
theorem C8_log_ring_oldest_first :
    logsAfter150.logCount = MAX_LOG_ENTRIES ∧
    (handleLogsOrder logsAfter150).map (·.message) =
      (List.range 100).map (fun n => "m" ++ toString (n + 51)) ∧
    (handleLogsOrder logsAfter150).map (·.message) ≠
      (List.range 100).map (fun n => "m" ++ toString (150 - n)) := by
  refine ⟨rfl, rfl, ?_⟩
  decide

/-- C9 counterexample: the claim says the WiFi state machine reaches
Connected only from Connecting upon confirmed lower-layer association.
But when the 20 s timeout fires, `updateWiFiConnection` sets
`WIFI_FAILED` and immediately calls `startAccessPoint()`, which sets
`wifiState = WIFI_CONNECTED` (with `apMode = true`) — so one tick with the
lower layer reporting *not* connected ends in `WIFI_CONNECTED`. -/
theorem C9_connected_without_association :
    updateWiFiConnection false 20001 ⟨WiFiState.WIFI_CONNECTING, false, 0⟩ =
      ⟨WiFiState.WIFI_CONNECTED, true, 0⟩ := by
  rfl

/-- C9 amended: outside AP mode, `updateWiFiConnection` reaches Connected
only from Connecting, and then either the lower layer confirmed the
association or the 20 s timeout expired and the device fell back to the
configuration access point (the resulting state has `apMode = true`,
having passed through `WIFI_FAILED` inside the tick); moreover the timeout
branch is exactly `startAccessPoint` applied to the Failed state. -/
theorem C9_wifi_transitions (s : WifiConn) (wl : Bool) (now : Nat)
    (hap : s.apMode = false) :
    ((updateWiFiConnection wl now s).wifiState = WiFiState.WIFI_CONNECTED →
      s.wifiState = WiFiState.WIFI_CONNECTED ∨
        (s.wifiState = WiFiState.WIFI_CONNECTING ∧
          (wl = true ∨ (now - s.wifiConnectStart > WIFI_TIMEOUT ∧
            (updateWiFiConnection wl now s).apMode = true)))) ∧
    (s.wifiState = WiFiState.WIFI_CONNECTING → wl = false →
      now - s.wifiConnectStart > WIFI_TIMEOUT →
      updateWiFiConnection wl now s =
        startAccessPoint { s with wifiState := WiFiState.WIFI_FAILED }) := by
  constructor
  · intro hconn
    by_cases hc : s.wifiState = WiFiState.WIFI_CONNECTING
    · refine Or.inr ⟨hc, ?_⟩
      cases wl with
      | true => exact Or.inl rfl
      | false =>
        refine Or.inr ?_
        by_cases ht : now - s.wifiConnectStart > WIFI_TIMEOUT
        · exact ⟨ht, by simp [updateWiFiConnection, hap, hc, ht, startAccessPoint]⟩
        · exfalso
          simp [updateWiFiConnection, hap, hc, ht] at hconn
    · left
      simpa [updateWiFiConnection, hap, hc] using hconn
  · intro hc hw ht
    simp [updateWiFiConnection, hap, hc, hw, ht]

/-- Witness for C9 at a concrete input: from Connecting (started at time
0, not in AP mode) with the lower layer confirming association, the tick
reaches Connected, and the amended characterization applies. -/
theorem C9_wifi_transitions_witness :
    (WifiConn.mk WiFiState.WIFI_CONNECTING false 0).apMode = false ∧
    (((updateWiFiConnection true 5 ⟨WiFiState.WIFI_CONNECTING, false, 0⟩).wifiState =
        WiFiState.WIFI_CONNECTED →
      (WifiConn.mk WiFiState.WIFI_CONNECTING false 0).wifiState = WiFiState.WIFI_CONNECTED ∨
        ((WifiConn.mk WiFiState.WIFI_CONNECTING false 0).wifiState = WiFiState.WIFI_CONNECTING ∧
          (true = true ∨ ((5 : Nat) - 0 > WIFI_TIMEOUT ∧
            (updateWiFiConnection true 5 ⟨WiFiState.WIFI_CONNECTING, false, 0⟩).apMode = true)))) ∧
    ((WifiConn.mk WiFiState.WIFI_CONNECTING false 0).wifiState = WiFiState.WIFI_CONNECTING →
      true = false → (5 : Nat) - 0 > WIFI_TIMEOUT →
      updateWiFiConnection true 5 ⟨WiFiState.WIFI_CONNECTING, false, 0⟩ =
        startAccessPoint { WifiConn.mk WiFiState.WIFI_CONNECTING false 0 with
          wifiState := WiFiState.WIFI_FAILED })) := by
  exact ⟨rfl, C9_wifi_transitions ⟨WiFiState.WIFI_CONNECTING, false, 0⟩ true 5 rfl⟩

/-! ### Input-monitor helper lemmas -/

lemma debouncePhase_lastState (inp : InputConfig) (r : Bool) (now : Nat) :
    (debouncePhase inp r now).lastState = inp.lastState := by
  unfold debouncePhase; split <;> rfl

lemma debouncePhase_currentState (inp : InputConfig) (r : Bool) (now : Nat) :
    (debouncePhase inp r now).currentState = r := by
  unfold debouncePhase; split
  · rfl
  · next h => exact (not_not.mp h).symm

lemma debouncePhase_lastNotificationTime (inp : InputConfig) (r : Bool) (now : Nat) :
    (debouncePhase inp r now).lastNotificationTime = inp.lastNotificationTime := by
  unfold debouncePhase; split <;> rfl

lemma debouncePhase_momentary (inp : InputConfig) (r : Bool) (now : Nat) :
    (debouncePhase inp r now).momentary_mode = inp.momentary_mode := by
  unfold debouncePhase; split <;> rfl

lemma debouncePhase_name (inp : InputConfig) (r : Bool) (now : Nat) :
    (debouncePhase inp r now).name = inp.name := by
  unfold debouncePhase; split <;> rfl

lemma debouncePhase_of_eq (inp : InputConfig) (r : Bool) (now : Nat)
    (h : r = inp.currentState) : debouncePhase inp r now = inp := by
  unfold debouncePhase; simp [h]

lemma debouncePhase_ldt (inp : InputConfig) (r : Bool) (now : Nat) :
    (debouncePhase inp r now).lastDebounceTime = now ∨
    (debouncePhase inp r now).lastDebounceTime = inp.lastDebounceTime := by
  unfold debouncePhase; split
  · exact Or.inl rfl
  · exact Or.inr rfl

/-- If the tick is not past the debounce window, or no pending/stable
difference exists, `monitorInput` only performs the raw-sample update. -/
lemma monitorInput_idle_of_not_window (env : MonitorEnv) (inp0 : InputConfig)
    (r : Bool) (now : Nat)
    (h : ¬ now - (debouncePhase inp0 r now).lastDebounceTime > DEBOUNCE_DELAY) :
    monitorInput env inp0 r now = (debouncePhase inp0 r now, MonitorAction.idle, []) := by
  simp only [monitorInput]
  rw [if_neg h]

lemma monitorInput_idle_of_no_edge (env : MonitorEnv) (inp0 : InputConfig)
    (r : Bool) (now : Nat)
    (h : (debouncePhase inp0 r now).currentState = (debouncePhase inp0 r now).lastState) :
    monitorInput env inp0 r now = (debouncePhase inp0 r now, MonitorAction.idle, []) := by
  simp only [monitorInput]
  split
  · rw [if_neg (by simpa using h)]
  · rfl

/-- The Momentary release edge: a confirmed transition to LOW in Momentary
mode updates `lastState` but produces nothing. -/
lemma monitorInput_commit_momentary_low (env : MonitorEnv) (inp0 : InputConfig)
    (r : Bool) (now : Nat)
    (hwin : now - (debouncePhase inp0 r now).lastDebounceTime > DEBOUNCE_DELAY)
    (hedge : (debouncePhase inp0 r now).currentState ≠ (debouncePhase inp0 r now).lastState)
    (hm : (debouncePhase inp0 r now).momentary_mode = true)
    (hcs : (debouncePhase inp0 r now).currentState = false) :
    monitorInput env inp0 r now =
      ({ debouncePhase inp0 r now with
          lastState := (debouncePhase inp0 r now).currentState },
        MonitorAction.idle, []) := by
  simp only [monitorInput]
  rw [if_pos hwin, if_pos hedge]
  simp [hm, hcs]

/-- A confirmed edge that should notify but falls inside the rate-limit
window is suppressed and logged as a WARNING; the state keeps the old
`lastNotificationTime`. -/
lemma monitorInput_commit_suppressed (env : MonitorEnv) (inp0 : InputConfig)
    (r : Bool) (now : Nat)
    (hwin : now - (debouncePhase inp0 r now).lastDebounceTime > DEBOUNCE_DELAY)
    (hedge : (debouncePhase inp0 r now).currentState ≠ (debouncePhase inp0 r now).lastState)
    (hnotify : (debouncePhase inp0 r now).momentary_mode = false ∨
      (debouncePhase inp0 r now).currentState = true)
    (hrate : ¬ now - (debouncePhase inp0 r now).lastNotificationTime ≥ MIN_NOTIFICATION_INTERVAL) :
    monitorInput env inp0 r now =
      ({ debouncePhase inp0 r now with
          lastState := (debouncePhase inp0 r now).currentState },
        MonitorAction.suppressed,
        [("WARNING", (debouncePhase inp0 r now).name ++ " notification rate limited")]) := by
  simp only [monitorInput]
  rw [if_pos hwin, if_pos hedge]
  rcases hnotify with hm | hcs
  · simp [hm, hrate]
  · cases hmom : (debouncePhase inp0 r now).momentary_mode <;> simp [hmom, hcs, hrate]

/-- A confirmed edge that should notify and passes the rate limiter
dispatches and records `lastNotificationTime = now`. -/
lemma monitorInput_commit_dispatched (env : MonitorEnv) (inp0 : InputConfig)
    (r : Bool) (now : Nat)
    (hwin : now - (debouncePhase inp0 r now).lastDebounceTime > DEBOUNCE_DELAY)
    (hedge : (debouncePhase inp0 r now).currentState ≠ (debouncePhase inp0 r now).lastState)
    (hnotify : (debouncePhase inp0 r now).momentary_mode = false ∨
      (debouncePhase inp0 r now).currentState = true)
    (hrate : now - (debouncePhase inp0 r now).lastNotificationTime ≥ MIN_NOTIFICATION_INTERVAL) :
    (monitorInput env inp0 r now).2.1.isDispatched = true ∧
    (monitorInput env inp0 r now).1.lastNotificationTime = now ∧
    (monitorInput env inp0 r now).1.lastState = (debouncePhase inp0 r now).currentState := by
  simp only [monitorInput]
  rw [if_pos hwin, if_pos hedge]
  rcases hnotify with hm | hcs
  · simp [hm, hrate, MonitorAction.isDispatched]
  · cases hmom : (debouncePhase inp0 r now).momentary_mode <;>
      simp [hmom, hcs, hrate, MonitorAction.isDispatched]

/-- The state fields after any confirmed edge: the new stable state is the
(pending) `currentState`, and the debounce timer and pending state are
those of the raw-sample update. -/
lemma monitorInput_commit_state (env : MonitorEnv) (inp0 : InputConfig)
    (r : Bool) (now : Nat)
    (hwin : now - (debouncePhase inp0 r now).lastDebounceTime > DEBOUNCE_DELAY)
    (hedge : (debouncePhase inp0 r now).currentState ≠ (debouncePhase inp0 r now).lastState) :
    (monitorInput env inp0 r now).1.lastState = (debouncePhase inp0 r now).currentState ∧
    (monitorInput env inp0 r now).1.currentState = (debouncePhase inp0 r now).currentState ∧
    (monitorInput env inp0 r now).1.lastDebounceTime = (debouncePhase inp0 r now).lastDebounceTime := by
  simp only [monitorInput]
  rw [if_pos hwin, if_pos hedge]
  split_ifs <;> simp

/-- Either the call dispatched and stamped `lastNotificationTime = now`,
or it did not dispatch and `lastNotificationTime` is untouched. -/
lemma monitorInput_lnt (env : MonitorEnv) (inp0 : InputConfig) (r : Bool) (now : Nat) :
    ((monitorInput env inp0 r now).2.1.isDispatched = true ∧
      (monitorInput env inp0 r now).1.lastNotificationTime = now) ∨
    ((monitorInput env inp0 r now).2.1.isDispatched = false ∧
      (monitorInput env inp0 r now).1.lastNotificationTime = inp0.lastNotificationTime) := by
  by_cases hwin : now - (debouncePhase inp0 r now).lastDebounceTime > DEBOUNCE_DELAY
  · by_cases hedge : (debouncePhase inp0 r now).currentState = (debouncePhase inp0 r now).lastState
    · right
      rw [monitorInput_idle_of_no_edge env inp0 r now hedge]
      exact ⟨rfl, debouncePhase_lastNotificationTime inp0 r now⟩
    · have main : ∀ hnotify : (debouncePhase inp0 r now).momentary_mode = false ∨
          (debouncePhase inp0 r now).currentState = true,
          ((monitorInput env inp0 r now).2.1.isDispatched = true ∧
            (monitorInput env inp0 r now).1.lastNotificationTime = now) ∨
          ((monitorInput env inp0 r now).2.1.isDispatched = false ∧
            (monitorInput env inp0 r now).1.lastNotificationTime = inp0.lastNotificationTime) := by
        intro hnotify
        by_cases hrate : now - (debouncePhase inp0 r now).lastNotificationTime ≥
          MIN_NOTIFICATION_INTERVAL
        · left
          have h := monitorInput_commit_dispatched env inp0 r now hwin hedge hnotify hrate
          exact ⟨h.1, h.2.1⟩
        · right
          rw [monitorInput_commit_suppressed env inp0 r now hwin hedge hnotify hrate]
          exact ⟨rfl, debouncePhase_lastNotificationTime inp0 r now⟩
      cases hmm : (debouncePhase inp0 r now).momentary_mode with
      | false => exact main (Or.inl hmm)
      | true =>
        cases hcs : (debouncePhase inp0 r now).currentState with
        | true => exact main (Or.inr hcs)
        | false =>
          right
          rw [monitorInput_commit_momentary_low env inp0 r now hwin hedge hmm hcs]
          exact ⟨rfl, debouncePhase_lastNotificationTime inp0 r now⟩
  · right
    rw [monitorInput_idle_of_not_window env inp0 r now hwin]
    exact ⟨rfl, debouncePhase_lastNotificationTime inp0 r now⟩

/-- One window-tick preserves the committed state and the invariant that a
pending difference has its debounce timer inside the window. -/
lemma monitor_window_step (env : MonitorEnv) (t0 : Nat) (inp0 : InputConfig)
    (r : Bool) (now : Nat)
    (hI : inp0.currentState = inp0.lastState ∨ t0 ≤ inp0.lastDebounceTime)
    (h1 : t0 ≤ now) (h2 : now < t0 + DEBOUNCE_DELAY) :
    (monitorInput env inp0 r now).1.lastState = inp0.lastState ∧
    ((monitorInput env inp0 r now).1.currentState = (monitorInput env inp0 r now).1.lastState ∨
      t0 ≤ (monitorInput env inp0 r now).1.lastDebounceTime) := by
  by_cases hr : r = inp0.currentState
  · have hd : debouncePhase inp0 r now = inp0 := debouncePhase_of_eq inp0 r now hr
    by_cases hcl : inp0.currentState = inp0.lastState
    · rw [monitorInput_idle_of_no_edge env inp0 r now (by rw [hd]; exact hcl), hd]
      exact ⟨rfl, Or.inl hcl⟩
    · have hldt : t0 ≤ inp0.lastDebounceTime := hI.resolve_left hcl
      have hwin : ¬ now - (debouncePhase inp0 r now).lastDebounceTime > DEBOUNCE_DELAY := by
        rw [hd]
        simp only [DEBOUNCE_DELAY] at h2 ⊢
        omega
      rw [monitorInput_idle_of_not_window env inp0 r now hwin, hd]
      exact ⟨rfl, Or.inr hldt⟩
  · have hd : debouncePhase inp0 r now =
        { inp0 with lastDebounceTime := now, currentState := r } := by
      unfold debouncePhase
      rw [if_pos hr]
    have hwin : ¬ now - (debouncePhase inp0 r now).lastDebounceTime > DEBOUNCE_DELAY := by
      rw [hd]
      simp [DEBOUNCE_DELAY]
    rw [monitorInput_idle_of_not_window env inp0 r now hwin, hd]
    exact ⟨rfl, Or.inr h1⟩

/-- All ticks inside the window leave `lastState` unchanged. -/
lemma runMonitor_window (env : MonitorEnv) (t0 : Nat) :
    ∀ (ticks : List (Bool × Nat)) (inp0 : InputConfig),
      (inp0.currentState = inp0.lastState ∨ t0 ≤ inp0.lastDebounceTime) →
      (∀ p ∈ ticks, t0 ≤ p.2 ∧ p.2 < t0 + DEBOUNCE_DELAY) →
      (runMonitor env inp0 ticks).lastState = inp0.lastState := by
  intro ticks
  induction ticks with
  | nil => intro inp0 _ _; rfl
  | cons p ps ih =>
    intro inp0 hI hw
    have hp := hw p (List.mem_cons_self p ps)
    have step := monitor_window_step env t0 inp0 p.1 p.2 hI hp.1 hp.2
    have hrec : runMonitor env inp0 (p :: ps) =
        runMonitor env (monitorInput env inp0 p.1 p.2).1 ps := rfl
    rw [hrec, ih _ step.2 (fun q hq => hw q (List.mem_cons_of_mem p hq))]
    exact step.1

/-- A change of the committed state forces both commit conditions. -/
lemma edge_conditions (env : MonitorEnv) (inp : InputConfig) (r : Bool) (now : Nat)
    (h : (monitorInput env inp r now).1.lastState ≠ inp.lastState) :
    now - (debouncePhase inp r now).lastDebounceTime > DEBOUNCE_DELAY ∧
    (debouncePhase inp r now).currentState ≠ (debouncePhase inp r now).lastState := by
  by_cases hwin : now - (debouncePhase inp r now).lastDebounceTime > DEBOUNCE_DELAY
  · by_cases hedge : (debouncePhase inp r now).currentState = (debouncePhase inp r now).lastState
    · rw [monitorInput_idle_of_no_edge env inp r now hedge] at h
      exact absurd (debouncePhase_lastState inp r now) h
    · exact ⟨hwin, hedge⟩
  · rw [monitorInput_idle_of_not_window env inp r now hwin] at h
    exact absurd (debouncePhase_lastState inp r now) h

/-- A confirmed edge that is eligible to notify but arrives inside the
rate-limit window yields exactly a suppression with a WARNING log. -/
lemma monitorInput_suppressed_of_edge (env : MonitorEnv) (inp : InputConfig)
    (r : Bool) (now : Nat)
    (hedge : (monitorInput env inp r now).1.lastState ≠ inp.lastState)
    (hnot : ¬(inp.momentary_mode = true ∧ (monitorInput env inp r now).1.lastState = false))
    (hrate : now - inp.lastNotificationTime < MIN_NOTIFICATION_INTERVAL) :
    monitorInput env inp r now =
      ({ debouncePhase inp r now with lastState := (debouncePhase inp r now).currentState },
        MonitorAction.suppressed,
        [("WARNING", inp.name ++ " notification rate limited")]) := by
  obtain ⟨hwin, hedge'⟩ := edge_conditions env inp r now hedge
  have hstate := monitorInput_commit_state env inp r now hwin hedge'
  have hnotify : (debouncePhase inp r now).momentary_mode = false ∨
      (debouncePhase inp r now).currentState = true := by
    cases hmm : (debouncePhase inp r now).momentary_mode with
    | false => exact Or.inl rfl
    | true =>
      cases hcs : (debouncePhase inp r now).currentState with
      | true => exact Or.inr rfl
      | false =>
        exact absurd ⟨(debouncePhase_momentary inp r now).symm.trans hmm,
          hstate.1.trans hcs⟩ hnot
  have hrate' : ¬ now - (debouncePhase inp r now).lastNotificationTime ≥
      MIN_NOTIFICATION_INTERVAL := by
    rw [debouncePhase_lastNotificationTime]
    exact not_le.mpr hrate
  rw [monitorInput_commit_suppressed env inp r now hwin hedge' hnotify hrate',
    debouncePhase_name]

/-- C5: debounce.  First part: starting from a quiescent channel
(`currentState = lastState`), any sequence of raw-sample ticks whose times
all lie inside a window shorter than `DEBOUNCE_DELAY` (all `t` with
`t0 ≤ t < t0 + DEBOUNCE_DELAY`) leaves the committed stable state
`lastState` unchanged, no matter how the raw pin flips.  Second part: in
any single tick, a change of `lastState` (a confirmed edge) happens only
when the pending state has been stable for more than `DEBOUNCE_DELAY`
(`now - lastDebounceTime > DEBOUNCE_DELAY` on the updated debounce timer)
and the committed value is exactly the pending `currentState`, which
differed from the previous stable state. -/
theorem C5_debounce (env : MonitorEnv) (t0 : Nat) (inp0 : InputConfig)
    (ticks : List (Bool × Nat))
    (hq : inp0.currentState = inp0.lastState)
    (hwin : ∀ p ∈ ticks, t0 ≤ p.2 ∧ p.2 < t0 + DEBOUNCE_DELAY) :
    (runMonitor env inp0 ticks).lastState = inp0.lastState ∧
    (∀ (inp : InputConfig) (r : Bool) (now : Nat),
      (monitorInput env inp r now).1.lastState ≠ inp.lastState →
      now - (monitorInput env inp r now).1.lastDebounceTime > DEBOUNCE_DELAY ∧
      (monitorInput env inp r now).1.lastState = (monitorInput env inp r now).1.currentState) := by
  constructor
  · exact runMonitor_window env t0 ticks inp0 (Or.inl hq) hwin
  · intro inp r now h
    obtain ⟨hw, he⟩ := edge_conditions env inp r now h
    have hstate := monitorInput_commit_state env inp r now hw he
    refine ⟨?_, hstate.1.trans hstate.2.1.symm⟩
    rw [hstate.2.2]
    exact hw

/-- Witness for C5: the default Input 1 slot, quiescent LOW, with raw
flips at 10 ms, 20 ms and 49 ms (all inside one 50 ms window) commits
nothing. -/
theorem C5_debounce_witness :
    (input1Boot.currentState = input1Boot.lastState ∧
      (∀ p ∈ [((true : Bool), (10 : Nat)), (false, 20), (true, 49)],
        0 ≤ p.2 ∧ p.2 < 0 + DEBOUNCE_DELAY)) ∧
    (runMonitor env0 input1Boot [((true : Bool), (10 : Nat)), (false, 20), (true, 49)]).lastState =
      input1Boot.lastState := by
  exact ⟨⟨rfl, by decide⟩,
    (C5_debounce env0 0 input1Boot [(true, 10), (false, 20), (true, 49)] rfl (by decide)).1⟩

/-- C6: Momentary mode.  Under a confirmed edge, if the new stable state
is LOW (the release edge) the call produces nothing at all; if it is HIGH
(the activation edge) the call either dispatches or is suppressed, and it
dispatches exactly when the rate limiter allows
(`now - lastNotificationTime >= MIN_NOTIFICATION_INTERVAL`) — so a
LOW→HIGH confirmed transition always attempts a dispatch, suppressible
only by rate limiting. -/
theorem C6_momentary (env : MonitorEnv) (inp0 : InputConfig) (r : Bool) (now : Nat)
    (hm : inp0.momentary_mode = true)
    (hedge : (monitorInput env inp0 r now).1.lastState ≠ inp0.lastState) :
    ((monitorInput env inp0 r now).1.lastState = false →
      (monitorInput env inp0 r now).2.1 = MonitorAction.idle ∧
      (monitorInput env inp0 r now).2.1.isDispatched = false) ∧
    ((monitorInput env inp0 r now).1.lastState = true →
      ((monitorInput env inp0 r now).2.1.isDispatched = true ∨
        (monitorInput env inp0 r now).2.1 = MonitorAction.suppressed) ∧
      ((monitorInput env inp0 r now).2.1.isDispatched = true ↔
        now - inp0.lastNotificationTime ≥ MIN_NOTIFICATION_INTERVAL)) := by
  obtain ⟨hwin, hedge'⟩ := edge_conditions env inp0 r now hedge
  have hstate := monitorInput_commit_state env inp0 r now hwin hedge'
  have hdm : (debouncePhase inp0 r now).momentary_mode = true :=
    (debouncePhase_momentary inp0 r now).trans hm
  constructor
  · intro hlow
    have hcs : (debouncePhase inp0 r now).currentState = false := hstate.1.symm.trans hlow
    rw [monitorInput_commit_momentary_low env inp0 r now hwin hedge' hdm hcs]
    exact ⟨rfl, rfl⟩
  · intro hhigh
    have hcs : (debouncePhase inp0 r now).currentState = true := hstate.1.symm.trans hhigh
    have hnotify : (debouncePhase inp0 r now).momentary_mode = false ∨
        (debouncePhase inp0 r now).currentState = true := Or.inr hcs
    by_cases hrate : now - (debouncePhase inp0 r now).lastNotificationTime ≥
        MIN_NOTIFICATION_INTERVAL
    · have h := monitorInput_commit_dispatched env inp0 r now hwin hedge' hnotify hrate
      refine ⟨Or.inl h.1, ?_, fun _ => h.1⟩
      intro _
      rw [← debouncePhase_lastNotificationTime inp0 r now]
      exact hrate
    · rw [monitorInput_commit_suppressed env inp0 r now hwin hedge' hnotify hrate]
      refine ⟨Or.inr rfl, ?_, ?_⟩
      · intro hfalse
        exact absurd hfalse (by simp [MonitorAction.isDispatched])
      · intro hr
        rw [← debouncePhase_lastNotificationTime inp0 r now] at hr
        exact absurd hr hrate

/-- Witness for C6: a Momentary channel with a pending HIGH held since
time 0, evaluated at 6000 ms: the LOW→HIGH edge confirms and dispatches
(rate limiter satisfied). -/
theorem C6_momentary_witness :
    (input1Momentary.momentary_mode = true ∧
      (monitorInput env0 input1Momentary true 6000).1.lastState ≠
        input1Momentary.lastState) ∧
    ((monitorInput env0 input1Momentary true 6000).1.lastState = true →
      ((monitorInput env0 input1Momentary true 6000).2.1.isDispatched = true ∨
        (monitorInput env0 input1Momentary true 6000).2.1 = MonitorAction.suppressed) ∧
      ((monitorInput env0 input1Momentary true 6000).2.1.isDispatched = true ↔
        6000 - input1Momentary.lastNotificationTime ≥ MIN_NOTIFICATION_INTERVAL)) := by
  exact ⟨⟨rfl, by decide⟩,
    (C6_momentary env0 input1Momentary true 6000 rfl (by decide)).2⟩

/-- C7: rate limiting.  (1) A dispatching call stamps
`lastNotificationTime = now`; (2) any call that does not dispatch leaves
`lastNotificationTime` untouched (so it is updated only on an actual
dispatch, never on a suppression); (3) a confirmed, notification-eligible
edge arriving less than `MIN_NOTIFICATION_INTERVAL` after the recorded
last dispatch is suppressed with exactly one WARNING log call and nothing
else — no queuing, and the preserved timestamp means a pair of confirmed
edges less than the interval apart yields exactly the first dispatch, the
second being suppressed. -/
theorem C7_rate_limit (env : MonitorEnv) :
    (∀ (inp : InputConfig) (r : Bool) (now : Nat),
      (monitorInput env inp r now).2.1.isDispatched = true →
        (monitorInput env inp r now).1.lastNotificationTime = now) ∧
    (∀ (inp : InputConfig) (r : Bool) (now : Nat),
      (monitorInput env inp r now).2.1.isDispatched = false →
        (monitorInput env inp r now).1.lastNotificationTime = inp.lastNotificationTime) ∧
    (∀ (inp : InputConfig) (r : Bool) (now : Nat),
      (monitorInput env inp r now).1.lastState ≠ inp.lastState →
      ¬(inp.momentary_mode = true ∧ (monitorInput env inp r now).1.lastState = false) →
      now - inp.lastNotificationTime < MIN_NOTIFICATION_INTERVAL →
      (monitorInput env inp r now).2.1 = MonitorAction.suppressed ∧
      (monitorInput env inp r now).2.2 =
        [("WARNING", inp.name ++ " notification rate limited")] ∧
      (monitorInput env inp r now).1.lastNotificationTime = inp.lastNotificationTime) := by
  refine ⟨?_, ?_, ?_⟩
  · intro inp r now h
    rcases monitorInput_lnt env inp r now with hd | hd
    · exact hd.2
    · rw [h] at hd
      exact absurd hd.1 (by simp)
  · intro inp r now h
    rcases monitorInput_lnt env inp r now with hd | hd
    · rw [h] at hd
      exact absurd hd.1 (by simp)
    · exact hd.2
  · intro inp r now hedge hnot hrate
    rw [monitorInput_suppressed_of_edge env inp r now hedge hnot hrate]
    exact ⟨rfl, rfl, debouncePhase_lastNotificationTime inp r now⟩

/-- Witness for C7: Toggle Input 1 whose previous dispatch was recorded at
6000 ms, with a pending HIGH held since 5000 ms, evaluated at 9000 ms
(3000 ms after the dispatch): the confirmed edge is suppressed with the
WARNING log and the timestamp is preserved. -/
theorem C7_rate_limit_witness :
    ((monitorInput env0 input1AfterDispatch true 9000).1.lastState ≠
        input1AfterDispatch.lastState ∧
      ¬(input1AfterDispatch.momentary_mode = true ∧
        (monitorInput env0 input1AfterDispatch true 9000).1.lastState = false) ∧
      9000 - input1AfterDispatch.lastNotificationTime < MIN_NOTIFICATION_INTERVAL) ∧
    ((monitorInput env0 input1AfterDispatch true 9000).2.1 = MonitorAction.suppressed ∧
      (monitorInput env0 input1AfterDispatch true 9000).2.2 =
        [("WARNING", input1AfterDispatch.name ++ " notification rate limited")] ∧
      (monitorInput env0 input1AfterDispatch true 9000).1.lastNotificationTime =
        input1AfterDispatch.lastNotificationTime) := by
  exact ⟨⟨by decide, by decide, by decide⟩,
    (C7_rate_limit env0).2.2 input1AfterDispatch true 9000 (by decide) (by decide)
      (by decide)⟩

/-- C10: boot-time suppression.  The `inputs[]` initializer sets
`lastNotificationTime = 0`, and the rate-limit guard compares
`now - lastNotificationTime` against `MIN_NOTIFICATION_INTERVAL`, so any
notification-eligible confirmed edge at a tick time below 5000 ms since
boot is suppressed even though nothing was ever dispatched for the
channel. -/
theorem C10_boot_rate_limit (env : MonitorEnv) (inp0 : InputConfig) (r : Bool) (now : Nat)
    (hlnt : inp0.lastNotificationTime = 0)
    (hnow : now < MIN_NOTIFICATION_INTERVAL)
    (hedge : (monitorInput env inp0 r now).1.lastState ≠ inp0.lastState)
    (hnot : ¬(inp0.momentary_mode = true ∧
      (monitorInput env inp0 r now).1.lastState = false)) :
    (monitorInput env inp0 r now).2.1 = MonitorAction.suppressed ∧
    (monitorInput env inp0 r now).2.1.isDispatched = false := by
  have hrate : now - inp0.lastNotificationTime < MIN_NOTIFICATION_INTERVAL := by
    rw [hlnt]
    simpa using hnow
  rw [monitorInput_suppressed_of_edge env inp0 r now hedge hnot hrate]
  exact ⟨rfl, rfl⟩

/-- Witness for C10: the boot-state Input 1 slot (both timestamps 0) with
a pending HIGH, evaluated at 60 ms: the edge confirms (60 > 50) but is
rate limited because `60 - 0 < 5000`. -/
theorem C10_boot_rate_limit_witness :
    (input1PendingHigh.lastNotificationTime = 0 ∧
      (60 : Nat) < MIN_NOTIFICATION_INTERVAL ∧
      (monitorInput env0 input1PendingHigh true 60).1.lastState ≠
        input1PendingHigh.lastState ∧
      ¬(input1PendingHigh.momentary_mode = true ∧
        (monitorInput env0 input1PendingHigh true 60).1.lastState = false)) ∧
    (monitorInput env0 input1PendingHigh true 60).2.1 = MonitorAction.suppressed := by
  exact ⟨⟨rfl, by decide, by decide, by decide⟩,
    (C10_boot_rate_limit env0 input1PendingHigh true 60 rfl (by decide) (by decide)
      (by decide)).1⟩

end ESP32
